import Mathlib

set_option linter.unusedVariables false

/-
Verification development for the PDF-extraction benchmark script
(benchmark.py).  The script is embedded shallowly: real numbers of the
Python program (times, sizes, rates) are modelled as exact rationals,
the effects of the outside world (filesystem, HTTP, PyPDF2) are passed
in explicitly as environment values, and each Python function becomes a
total Lean function over those environments.  Fields of the report
dictionaries keep the names and the decimal rounding of the source.
-/

/-- Python rounding of a rational to the nearest integer, ties to even
(the semantics of the builtin round on exact values). -/
def roundHalfEven (x : ℚ) : ℤ :=
  let n : ℤ := ⌊x⌋
  let r : ℚ := x - (n : ℚ)
  if r < 1/2 then n
  else if 1/2 < r then n + 1
  else if n % 2 = 0 then n else n + 1

/-- Python round(x, nd) to nd decimal digits, on exact rationals. -/
def pyRound (x : ℚ) (nd : ℕ) : ℚ :=
  ((roundHalfEven (x * 10 ^ nd) : ℤ) : ℚ) / 10 ^ nd

/-- Shape of the parsed HTTP response body, as distinguished by the
response-normalisation chain of test_extraction (benchmark.py lines
160-177): a top-level list, a dict whose elements key holds a list, a
dict whose elements key holds a string that decodes to a list, a dict
whose elements key holds a string that does not decode to a list, a
dict without a usable elements list, or any other top-level value. -/
inductive BodyShape where
  | list (n : ℕ)
  | dictElementsList (n : ℕ)
  | dictElementsStrList (n : ℕ)
  | dictElementsStrOther
  | dictOther
  | other
  deriving DecidableEq

/-- Element count produced by the normalisation chain (benchmark.py
lines 163-177): every unrecognised shape degrades to count 0. -/
def BodyShape.elements_count : BodyShape → ℕ
  | .list n => n
  | .dictElementsList n => n
  | .dictElementsStrList n => n
  | _ => 0

/-- Outcome of the HTTP POST inside test_extraction: a response with a
status code and parsed body, a requests timeout, or any other raised
exception (transport error, unreadable file, and so on). -/
inductive RequestOutcome where
  | response (status : ℕ) (body : BodyShape) (text : String)
  | timeout
  | exn (message : String)
  deriving DecidableEq

/-- Environment of one test_extraction call: the state of the world the
call observes.  fileExists models pdf_path.exists(), size_bytes the
stat size, pages the count_pages result (none when PyPDF2 is missing or
fails), outcome the fate of the HTTP request, and elapsed the
wall-clock delta time.time() - start_time measured at the point the
request finishes or raises (always nonnegative on a real clock). -/
structure ExecEnv where
  fileExists : Bool
  size_bytes : ℕ
  pages : Option ℕ
  outcome : RequestOutcome
  elapsed : ℚ
  deriving DecidableEq

/-- The local variable speed_mb_per_min of test_extraction
(benchmark.py line 178). -/
def speed_mb_per_min (file_size_mb elapsed : ℚ) : ℚ :=
  if 0 < elapsed then file_size_mb / (elapsed / 60) else 0

/-- The local variable speed_mb_per_hour (line 179). -/
def speed_mb_per_hour (file_size_mb elapsed : ℚ) : ℚ :=
  speed_mb_per_min file_size_mb elapsed * 60

/-- The local variable speed_mb_per_sec (line 180). -/
def speed_mb_per_sec (file_size_mb elapsed : ℚ) : ℚ :=
  if 0 < elapsed then file_size_mb / elapsed else 0

/-- The local variable pages_per_min (line 181): defined only when the
page count is known, truthy (nonzero) and elapsed is positive. -/
def pages_per_min (pages : Option ℕ) (elapsed : ℚ) : Option ℚ :=
  match pages with
  | some p => if p ≠ 0 ∧ 0 < elapsed then some ((p : ℚ) / (elapsed / 60)) else none
  | none => none

/-- The local variable pages_per_hour (line 182): pages_per_min times
60 when pages_per_min is truthy (not None and nonzero), else None. -/
def pages_per_hour (pages : Option ℕ) (elapsed : ℚ) : Option ℚ :=
  match pages_per_min pages elapsed with
  | some v => if v = 0 then none else some (v * 60)
  | none => none

/-- Python expression round(x, nd) if x else None, applied to an
optional rate when building the report dict (lines 197-198). -/
def optTruthyRound (x : Option ℚ) (nd : ℕ) : Option ℚ :=
  match x with
  | some v => if v = 0 then none else some (pyRound v nd)
  | none => none

/-- The four dictionary shapes test_extraction can return (benchmark.py
lines 184-203, 219-226, 231-237, 242-248): a success report, an HTTP
error report, a timeout failure, and a generic exception failure.  The
success flag of the dicts is the constructor; timestamp and filepath
fields, which are wall-clock identities with no role in any rate or
aggregate, are omitted. -/
inductive MeasurementRecord where
  | success (filename : String) (size_mb : ℚ) (pages : Option ℕ) (strategy : String)
      (processing_time_seconds processing_time_minutes processing_time_hours : ℚ)
      (elements_count : ℕ)
      (speed_mb_per_second speed_mb_per_minute speed_mb_per_hour : ℚ)
      (pages_per_minute pages_per_hour : Option ℚ)
      (status_code : ℕ)
  | httpError (filename strategy : String) (status_code : ℕ) (response_snippet : String)
  | timeoutFailure (filename strategy : String) (elapsed_minutes : ℚ)
  | exnFailure (filename strategy error : String) (elapsed_minutes : ℚ)
  deriving DecidableEq

/-- The success flag of a record (r.get the success key). -/
def MeasurementRecord.isSuccess : MeasurementRecord → Bool
  | .success _ _ _ _ _ _ _ _ _ _ _ _ _ _ => true
  | _ => false

/-- The size_mb field; only success records carry it, and only they are
ever read from (aggregation reads it on the successful sublist only). -/
def MeasurementRecord.size_mb : MeasurementRecord → ℚ
  | .success _ s _ _ _ _ _ _ _ _ _ _ _ _ => s
  | _ => 0

/-- The pages field of a record (none on failure records, which carry
no such key). -/
def MeasurementRecord.pages : MeasurementRecord → Option ℕ
  | .success _ _ p _ _ _ _ _ _ _ _ _ _ _ => p
  | _ => none

/-- The processing_time_seconds field of a success record. -/
def MeasurementRecord.processing_time_seconds : MeasurementRecord → ℚ
  | .success _ _ _ _ t _ _ _ _ _ _ _ _ _ => t
  | _ => 0

/-- The speed_mb_per_minute field of a success record. -/
def MeasurementRecord.speed_mb_per_minute : MeasurementRecord → ℚ
  | .success _ _ _ _ _ _ _ _ _ m _ _ _ _ => m
  | _ => 0

/-- The pages_per_minute field of a success record. -/
def MeasurementRecord.pages_per_minute : MeasurementRecord → Option ℚ
  | .success _ _ _ _ _ _ _ _ _ _ _ pm _ _ => pm
  | _ => none

/-- The pages_per_hour field of a success record. -/
def MeasurementRecord.pages_per_hour_field : MeasurementRecord → Option ℚ
  | .success _ _ _ _ _ _ _ _ _ _ _ _ ph _ => ph
  | _ => none

/-- Embedding of test_extraction (benchmark.py lines 104-248).  The
function returns None when the input file does not exist (line 115) and
otherwise a record for each of the four outcome branches.  The api_url,
ocr_languages and save_raw parameters of the source only shape the
outbound request and an optional raw-response side file; they are
absorbed by the outcome environment and carry no record content, so
they are not repeated here. -/
def test_extraction (env : ExecEnv) (pdf_name strategy : String) (timeout : ℚ) :
    Option MeasurementRecord :=
  if env.fileExists = false then none
  else
    let file_size_mb : ℚ := (env.size_bytes : ℚ) / (1024 * 1024)
    match env.outcome with
    | .response status body text =>
        if status = 200 then
          some (.success pdf_name (pyRound file_size_mb 3) env.pages strategy
            (pyRound env.elapsed 3) (pyRound (env.elapsed / 60) 3)
            (pyRound (env.elapsed / 3600) 5)
            body.elements_count
            (pyRound (speed_mb_per_sec file_size_mb env.elapsed) 5)
            (pyRound (speed_mb_per_min file_size_mb env.elapsed) 5)
            (pyRound (speed_mb_per_hour file_size_mb env.elapsed) 5)
            (optTruthyRound (pages_per_min env.pages env.elapsed) 4)
            (optTruthyRound (pages_per_hour env.pages env.elapsed) 2)
            status)
        else some (.httpError pdf_name strategy status (text.take 600))
    | .timeout => some (.timeoutFailure pdf_name strategy (pyRound (env.elapsed / 60) 2))
    | .exn m => some (.exnFailure pdf_name strategy m (pyRound (env.elapsed / 60) 2))

/-- Environment of one run_estimator call (benchmark.py lines 268-314):
total_pages is the count_pages result on the original PDF, sample_path
the extract_head_pdf result (none when PyPDF2 is missing, the head has
zero pages, or the write fails), and sampleEnv the world observed by
the test_extraction call on the sample file; its fileExists field
models the sample_path.exists() check, which reads the same file the
sample measurement then opens. -/
structure EstimatorEnv where
  total_pages : Option ℕ
  sample_path : Option String
  sampleEnv : ExecEnv
  deriving DecidableEq

/-- The dictionary run_estimator returns on an applicable projection
(benchmark.py lines 304-314). -/
structure ProjectionResult where
  sample_pages : ℤ
  total_pages : ℕ
  time_per_page_seconds : ℚ
  estimated_total_seconds : ℚ
  estimated_total_minutes : ℚ
  estimated_total_hours : ℚ
  strategy : String
  ocr_languages : String
  sample_file : String
  deriving DecidableEq

/-- Embedding of run_estimator (benchmark.py lines 268-314).  Each
skip branch of the source returns None: estimate_pages nonpositive
(line 276), unknown or zero or too-small total page count (line 280,
Python truthiness of 0 included), missing sample file (line 285), and a
sample measurement that is absent or not a success (line 290).  The
projection itself divides the recorded processing_time_seconds of the
sample run by estimate_pages and scales by the total page count (lines
294-297). -/
def run_estimator (env : EstimatorEnv) (strategy : String) (timeout : ℚ)
    (ocr_languages : String) (estimate_pages : ℤ) : Option ProjectionResult :=
  if estimate_pages ≤ 0 then none
  else match env.total_pages with
  | none => none
  | some total_pages =>
    if total_pages = 0 ∨ (total_pages : ℤ) ≤ estimate_pages then none
    else match env.sample_path with
    | none => none
    | some sample_path =>
      if env.sampleEnv.fileExists = false then none
      else match test_extraction env.sampleEnv sample_path strategy timeout with
      | none => none
      | some res =>
        if res.isSuccess = false then none
        else
          let time_per_page_s := res.processing_time_seconds / (estimate_pages : ℚ)
          let est_total_seconds := time_per_page_s * (total_pages : ℚ)
          let est_total_minutes := est_total_seconds / 60
          let est_total_hours := est_total_minutes / 60
          some ⟨estimate_pages, total_pages,
            pyRound time_per_page_s 3,
            pyRound est_total_seconds 2,
            pyRound est_total_minutes 2,
            pyRound est_total_hours 3,
            strategy, ocr_languages, sample_path⟩

/-- The one uncaught exception the orchestrator can raise: the
strategies[0] lookup on an empty strategies list in the warm-up step
(benchmark.py line 340). -/
inductive PyError where
  | indexError
  deriving DecidableEq

/-- Environment of one run_benchmark call: the readiness-probe verdict
(wait_for_api, lines 251-265), the world observed by each sweep or
warm-up test_extraction call keyed by file and strategy, and the
estimator environment for the first file. -/
structure BenchEnv where
  ready : Bool
  exec : String → String → ExecEnv
  estEnv : EstimatorEnv

/-- Result of one run_benchmark call: either a record list or the one
uncaught exception, together with the ordered trace of the
test_extraction invocations the run performed (file, strategy). -/
structure BenchRun where
  result : Except PyError (List MeasurementRecord)
  calls : List (String × String)

/-- The real sweep of run_benchmark (benchmark.py lines 357-367): for
each file in order, for each strategy in order, one test_extraction
call whose record, when present, is appended; a None result (missing
file) is dropped by the `if r` guard. -/
def benchmark_sweep (env : BenchEnv) (pdf_files strategies : List String)
    (timeout : ℚ) : List MeasurementRecord :=
  pdf_files.flatMap fun p =>
    strategies.filterMap fun s => test_extraction (env.exec p s) p s timeout

/-- The test_extraction invocations the sweep performs, in order. -/
def sweep_calls (pdf_files strategies : List String) : List (String × String) :=
  pdf_files.flatMap fun p => strategies.map fun s => (p, s)

/-- Whether run_estimator reaches its sample measurement: all skip
checks before the test_extraction call on the sample must pass. -/
def estimator_reaches_sample (env : EstimatorEnv) (estimate_pages : ℤ) : Bool :=
  (!decide (estimate_pages ≤ 0)) &&
  (match env.total_pages with
   | none => false
   | some tp => !(decide (tp = 0) || decide ((tp : ℤ) ≤ estimate_pages))) &&
  env.sample_path.isSome && env.sampleEnv.fileExists

/-- The test_extraction invocation run_estimator performs, if any. -/
def estimator_calls (env : EstimatorEnv) (strategy : String) (estimate_pages : ℤ) :
    List (String × String) :=
  if estimator_reaches_sample env estimate_pages then
    [(env.sample_path.getD "", strategy)]
  else []

/-- The tail of run_benchmark after the warm-up step (benchmark.py
lines 342-367): the estimator block runs only when estimate_pages is
truthy and positive and there are files (line 343); every exception it
raises, the strategies[0] IndexError on an empty strategies list
included, is caught and logged by the surrounding handler (lines
353-354), so the block contributes no result and at most one sample
call; then the real sweep runs and its list is returned. -/
def run_benchmark_rest (env : BenchEnv) (pdf_files strategies : List String)
    (timeout : ℚ) (estimate_pages : ℤ) (warm_calls : List (String × String)) : BenchRun :=
  let est_calls :=
    if 0 < estimate_pages ∧ pdf_files ≠ [] ∧ strategies ≠ [] then
      estimator_calls env.estEnv (strategies.headD "") estimate_pages
    else []
  ⟨Except.ok (benchmark_sweep env pdf_files strategies timeout),
   warm_calls ++ (est_calls ++ sweep_calls pdf_files strategies)⟩

/-- Embedding of run_benchmark (benchmark.py lines 317-367).  The probe
failure path returns an empty list before any measurement (lines
334-335).  With warm-up enabled and a nonempty file list, the warm-up
call indexes strategies[0] (line 340): on an empty strategies list this
raises an uncaught IndexError and the function never returns; otherwise
the warm-up record is computed and discarded.  The api_url, save_raw
and ocr_languages parameters are absorbed by the per-call environments
as in test_extraction. -/
def run_benchmark (env : BenchEnv) (pdf_files strategies : List String)
    (warmup : Bool) (timeout : ℚ) (estimate_pages : ℤ) : BenchRun :=
  if env.ready = false then ⟨Except.ok [], []⟩
  else
    match warmup, pdf_files with
    | true, f0 :: _ =>
      match strategies with
      | [] => ⟨Except.error PyError.indexError, []⟩
      | s0 :: _ =>
        let _warm_record := test_extraction (env.exec f0 s0) f0 s0 timeout
        run_benchmark_rest env pdf_files strategies timeout estimate_pages [(f0, s0)]
    | _, _ => run_benchmark_rest env pdf_files strategies timeout estimate_pages []

/-- Python max over a nonempty list of rationals, as used by
print_final_report on the successful-record speeds (benchmark.py line
421); the empty arm is unreachable there because the zero-success case
returns earlier. -/
def list_max (l : List ℚ) : ℚ :=
  match l with
  | [] => 0
  | x :: xs => xs.foldl max x

/-- Python min over a nonempty list of rationals (benchmark.py line
422). -/
def list_min (l : List ℚ) : ℚ :=
  match l with
  | [] => 0
  | x :: xs => xs.foldl min x

/-- What one print_final_report call reports (benchmark.py lines
370-430): nothing beyond a no-results notice for an empty list (lines
371-373), the three counts only when no record succeeded (lines
379-386), and otherwise the counts together with every total, rate and
statistic the function prints. -/
inductive FinalReport where
  | noResults
  | countsOnly (total successes failures : ℕ)
  | full (total successes failures : ℕ)
      (total_mb total_seconds : ℚ) (total_pages : ℕ)
      (agg_mb_per_s agg_mb_per_min : ℚ) (agg_pages_per_min : Option ℚ)
      (avg_speed max_speed min_speed daily_capacity_gb : ℚ)
  deriving DecidableEq

/-- Embedding of print_final_report (benchmark.py lines 370-430) as the
pure value it reports.  The successful and failed sublists are the two
filters of line 375-376; total_pages sums the known page counts over
successes (line 390); the aggregate rate guards zero elapsed (line
392); the aggregate page rate needs truthy total_pages and positive
elapsed (line 394); avg, max and min are over the successful records
only (lines 420-422); daily capacity is avg times minutes per day over
1024 (line 429). -/
def print_final_report (results : List MeasurementRecord) : FinalReport :=
  match results with
  | [] => FinalReport.noResults
  | _ :: _ =>
    let successful := results.filter (fun r => r.isSuccess)
    let failed := results.filter (fun r => !r.isSuccess)
    if successful = [] then
      FinalReport.countsOnly results.length successful.length failed.length
    else
      let total_mb := (successful.map (fun r => r.size_mb)).sum
      let total_seconds := (successful.map (fun r => r.processing_time_seconds)).sum
      let total_pages := (successful.filterMap (fun r => r.pages)).sum
      let agg_mb_per_s := if 0 < total_seconds then total_mb / total_seconds else 0
      let agg_mb_per_min := agg_mb_per_s * 60
      let agg_pages_per_min :=
        if total_pages ≠ 0 ∧ 0 < total_seconds then
          some ((total_pages : ℚ) / (total_seconds / 60))
        else none
      let speeds := successful.map (fun r => r.speed_mb_per_minute)
      let avg_speed := speeds.sum / (successful.length : ℚ)
      let daily_capacity_gb := (avg_speed * 60 * 24) / 1024
      FinalReport.full results.length successful.length failed.length
        total_mb total_seconds total_pages agg_mb_per_s agg_mb_per_min
        agg_pages_per_min avg_speed (list_max speeds) (list_min speeds)
        daily_capacity_gb

/-- Rounding of zero is zero for every digit count. -/
lemma pyRound_zero (nd : ℕ) : pyRound 0 nd = 0 := by
  norm_num [pyRound, roundHalfEven]

/-- With zero elapsed time the page rate guard fails, so the local
pages_per_min is None. -/
lemma pages_per_min_zero_elapsed (p : Option ℕ) : pages_per_min p 0 = none := by
  cases p <;> simp [pages_per_min]

/-- With zero elapsed time pages_per_hour is None as well. -/
lemma pages_per_hour_zero_elapsed (p : Option ℕ) : pages_per_hour p 0 = none := by
  simp [pages_per_hour, pages_per_min_zero_elapsed]

/-- C1 (counterexample): at a concrete environment whose input file
does not exist, test_extraction returns None, not any MeasurementRecord
tagged input not found; the stated propagation policy that every call
path resolves to a record fails on this path. -/
theorem test_extraction_missing_counterexample :
    test_extraction ⟨false, 0, none, RequestOutcome.timeout, 0⟩ "missing.pdf" "fast" 60 = none :=
  rfl

/-- C1 (amended): a test_extraction call yields no record exactly when
the input file does not exist (the source prints a message and returns
None before contacting the service); whenever the file exists, every
call path resolves to some MeasurementRecord, success or tagged
failure. -/
theorem test_extraction_none_iff_missing (env : ExecEnv) (n s : String) (t : ℚ) :
    test_extraction env n s t = none ↔ env.fileExists = false := by
  obtain ⟨fe, sb, pg, oc, el⟩ := env
  cases fe with
  | false => simp [test_extraction]
  | true =>
    cases oc with
    | response status body text =>
      by_cases hst : status = 200 <;> simp [test_extraction, hst]
    | timeout => simp [test_extraction]
    | exn m => simp [test_extraction]

/-- C2: for every nonnegative elapsed time the minute rate equals the
per-second rate times 60, the hour rate equals the minute rate times
60, and whenever the page-per-minute rate is defined the page-per-hour
rate equals it times 60.  The relations are exact over the rational
embedding; the stored record fields additionally round each rate to a
fixed decimal precision for display. -/
theorem rate_unit_conversion (sz e : ℚ) (p : Option ℕ) (he : 0 ≤ e) :
    speed_mb_per_min sz e = speed_mb_per_sec sz e * 60 ∧
    speed_mb_per_hour sz e = speed_mb_per_min sz e * 60 ∧
    (∀ v, pages_per_min p e = some v → pages_per_hour p e = some (v * 60)) := by
  refine ⟨?_, rfl, ?_⟩
  · unfold speed_mb_per_min speed_mb_per_sec
    split
    · rw [div_div_eq_mul_div, div_mul_eq_mul_div]
    · rw [zero_mul]
  · intro v hv
    have hvpos : 0 < v := by
      cases p with
      | none => simp [pages_per_min] at hv
      | some k =>
        simp only [pages_per_min] at hv
        by_cases hk : k ≠ 0 ∧ 0 < e
        · rw [if_pos hk] at hv
          have hkv : ((k : ℚ) / (e / 60)) = v := Option.some_inj.mp hv
          rw [← hkv]
          exact div_pos (by exact_mod_cast Nat.pos_of_ne_zero hk.1)
            (by have := hk.2; linarith)
        · rw [if_neg hk] at hv
          exact absurd hv (by simp)
    simp only [pages_per_hour, hv]
    rw [if_neg hvpos.ne']

/-- C2 witness: the relations at size 1 MB, elapsed 2 s, 4 pages. -/
theorem rate_unit_conversion_witness :
    speed_mb_per_min 1 2 = speed_mb_per_sec 1 2 * 60 ∧
    speed_mb_per_hour 1 2 = speed_mb_per_min 1 2 * 60 ∧
    pages_per_hour (some 4) 2 = some (120 * 60) :=
  ⟨(rate_unit_conversion 1 2 (some 4) (by norm_num)).1,
   (rate_unit_conversion 1 2 (some 4) (by norm_num)).2.1,
   (rate_unit_conversion 1 2 (some 4) (by norm_num)).2.2 120
     (by norm_num [pages_per_min])⟩

/-- C3 (counterexample): a successful measurement with elapsed time 0
and a known page count of 5 stores None, not 0, in its page-rate
fields, while the claim asks that every derived rate field equal 0. -/
theorem zero_elapsed_page_rate_counterexample :
    test_extraction ⟨true, 1048576, some 5, RequestOutcome.response 200 (BodyShape.list 3) "", 0⟩
        "f.pdf" "fast" 60 =
      some (MeasurementRecord.success "f.pdf" 1 (some 5) "fast" 0 0 0 3 0 0 0 none none 200) ∧
    (none : Option ℚ) ≠ some 0 := by
  constructor
  · norm_num [test_extraction, speed_mb_per_sec, speed_mb_per_min, speed_mb_per_hour,
      pages_per_min, pages_per_hour, optTruthyRound, pyRound, roundHalfEven,
      BodyShape.elements_count]
  · simp

/-- C3 (amended): a successful measurement with elapsed time 0 stores 0
in every MB rate field and in every processing-time field (never NaN or
Infinity, which the rational embedding cannot even express), while both
page-rate fields are stored as None (absent), not 0. -/
theorem zero_elapsed_rates (env : ExecEnv) (n s : String) (t : ℚ)
    (body : BodyShape) (text : String)
    (hfe : env.fileExists = true) (hout : env.outcome = RequestOutcome.response 200 body text)
    (he : env.elapsed = 0) :
    test_extraction env n s t =
      some (MeasurementRecord.success n (pyRound ((env.size_bytes : ℚ) / (1024 * 1024)) 3)
        env.pages s 0 0 0 body.elements_count 0 0 0 none none 200) := by
  simp [test_extraction, hfe, hout, he, speed_mb_per_sec, speed_mb_per_min, speed_mb_per_hour,
    pages_per_min_zero_elapsed, pages_per_hour_zero_elapsed, optTruthyRound, pyRound_zero]

/-- C3 witness: the amended statement at a concrete zero-elapsed
success environment. -/
theorem zero_elapsed_rates_witness :
    test_extraction ⟨true, 2097152, some 7, RequestOutcome.response 200 (BodyShape.dictElementsList 4) "x", 0⟩
        "g.pdf" "hi_res" 5 =
      some (MeasurementRecord.success "g.pdf" (pyRound ((2097152 : ℚ) / (1024 * 1024)) 3)
        (some 7) "hi_res" 0 0 0 (BodyShape.dictElementsList 4).elements_count 0 0 0 none none 200) :=
  zero_elapsed_rates ⟨true, 2097152, some 7, RequestOutcome.response 200 (BodyShape.dictElementsList 4) "x", 0⟩
    "g.pdf" "hi_res" 5 (BodyShape.dictElementsList 4) "x" rfl rfl rfl

/-- C4 (counterexample): a timeout observed 180 s after the start of a
request whose caller-supplied timeout is 120 s is recorded with
elapsed_minutes 3, that is 180 s, strictly above the 2-minute timeout
bound; the recorded elapsed time is not capped at the timeout value. -/
theorem timeout_uncapped_counterexample :
    test_extraction ⟨true, 100, none, RequestOutcome.timeout, 180⟩ "w.pdf" "fast" 120 =
      some (MeasurementRecord.timeoutFailure "w.pdf" "fast" 3) ∧
    ¬ ((3 : ℚ) ≤ 120 / 60) := by
  constructor
  · norm_num [test_extraction, pyRound, roundHalfEven]
  · norm_num

/-- C4 (amended): on a timeout the call yields a failure record tagged
Timeout whose elapsed_minutes field is the measured wall-clock elapsed
time at the exception, divided by 60 and rounded to two decimals, with
no capping at the caller-supplied timeout. -/
theorem timeout_record_amended (env : ExecEnv) (n s : String) (t : ℚ)
    (hfe : env.fileExists = true) (hout : env.outcome = RequestOutcome.timeout) :
    test_extraction env n s t =
      some (MeasurementRecord.timeoutFailure n s (pyRound (env.elapsed / 60) 2)) := by
  simp [test_extraction, hfe, hout]

/-- C4 witness: the amended statement at a concrete timeout
environment. -/
theorem timeout_record_amended_witness :
    test_extraction ⟨true, 100, none, RequestOutcome.timeout, 90⟩ "v.pdf" "fast" 120 =
      some (MeasurementRecord.timeoutFailure "v.pdf" "fast" (pyRound (90 / 60) 2)) :=
  timeout_record_amended ⟨true, 100, none, RequestOutcome.timeout, 90⟩ "v.pdf" "fast" 120 rfl rfl

/-- C5: run_estimator resolves to not-applicable (None, never an
exception) under every condition of the skip policy: nonpositive
samplePages, undeterminable full page count, full page count at most
samplePages, missing sample file from the sample-producing
collaborator, or a sample measurement that is absent or not a
success. -/
theorem run_estimator_skip_policy (env : EstimatorEnv) (s o : String) (t : ℚ) (ep : ℤ)
    (h : ep ≤ 0 ∨ env.total_pages = none ∨
      (∃ tp, env.total_pages = some tp ∧ (tp : ℤ) ≤ ep) ∨
      env.sample_path = none ∨ env.sampleEnv.fileExists = false ∨
      (∀ sp r, env.sample_path = some sp →
        test_extraction env.sampleEnv sp s t = some r → r.isSuccess = false)) :
    run_estimator env s t o ep = none := by
  unfold run_estimator
  split
  · rfl
  · rename_i hep
    split
    · rfl
    · rename_i tp htp
      split
      · rfl
      · rename_i h0
        split
        · rfl
        · rename_i sp hsp
          split
          · rfl
          · rename_i hex
            split
            · rfl
            · rename_i r hr
              split
              · rfl
              · rename_i hsucc
                exfalso
                rcases h with h | h | ⟨tp2, htp2, hle⟩ | h | h | h
                · exact hep h
                · rw [htp] at h
                  cases h
                · rw [htp] at htp2
                  have : tp2 = tp := Option.some_inj.mp htp2.symm
                  subst this
                  exact h0 (Or.inr hle)
                · rw [hsp] at h
                  cases h
                · exact hex h
                · exact hsucc (h sp r hsp hr)

/-- C5 witness: the skip at a concrete environment whose full page
count is unknown. -/
theorem run_estimator_skip_policy_witness :
    run_estimator ⟨none, none, ⟨false, 0, none, RequestOutcome.timeout, 0⟩⟩
      "fast" 60 "ita+eng" 10 = none :=
  run_estimator_skip_policy ⟨none, none, ⟨false, 0, none, RequestOutcome.timeout, 0⟩⟩
    "fast" "ita+eng" 60 10 (Or.inr (Or.inl rfl))

/-- C6: for every applicable projection, run_estimator stores
time-per-page = recorded sample elapsed seconds / samplePages and
extrapolated total seconds = time-per-page times the full page count
(each field rounded to the precision of the source), together with the
derived minute and hour forms. -/
theorem run_estimator_projection_math (env : EstimatorEnv) (s o sp : String) (t : ℚ)
    (tp : ℕ) (ep : ℤ) (res : MeasurementRecord)
    (hep : 0 < ep) (htp : env.total_pages = some tp) (hlt : ep < (tp : ℤ))
    (hsp : env.sample_path = some sp) (hex : env.sampleEnv.fileExists = true)
    (hres : test_extraction env.sampleEnv sp s t = some res)
    (hsucc : res.isSuccess = true) :
    run_estimator env s t o ep =
      some ⟨ep, tp, pyRound (res.processing_time_seconds / (ep : ℚ)) 3,
        pyRound (res.processing_time_seconds / (ep : ℚ) * (tp : ℚ)) 2,
        pyRound (res.processing_time_seconds / (ep : ℚ) * (tp : ℚ) / 60) 2,
        pyRound (res.processing_time_seconds / (ep : ℚ) * (tp : ℚ) / 60 / 60) 3,
        s, o, sp⟩ := by
  have h1 : ¬ (ep ≤ 0) := by omega
  have h2 : ¬ (tp = 0 ∨ (tp : ℤ) ≤ ep) := by omega
  simp [run_estimator, h1, htp, h2, hsp, hex, hres, hsucc]

/-- Concrete sample-measurement environment for the projection example:
a 1 MB sample processed successfully in 12 s. -/
def estSampleEnv : ExecEnv :=
  ⟨true, 1048576, some 10, RequestOutcome.response 200 (BodyShape.list 42) "", 12⟩

/-- Concrete estimator environment: full document of 100 pages, sample
file of the first 10 pages. -/
def estEnv : EstimatorEnv := ⟨some 100, some "w10.pdf", estSampleEnv⟩

/-- The success record the sample measurement of estEnv produces. -/
def estSampleRecord : MeasurementRecord :=
  MeasurementRecord.success "w10.pdf"
    (pyRound ((estSampleEnv.size_bytes : ℚ) / (1024 * 1024)) 3)
    estSampleEnv.pages "hi_res"
    (pyRound estSampleEnv.elapsed 3) (pyRound (estSampleEnv.elapsed / 60) 3)
    (pyRound (estSampleEnv.elapsed / 3600) 5)
    (BodyShape.list 42).elements_count
    (pyRound (speed_mb_per_sec ((estSampleEnv.size_bytes : ℚ) / (1024 * 1024)) estSampleEnv.elapsed) 5)
    (pyRound (speed_mb_per_min ((estSampleEnv.size_bytes : ℚ) / (1024 * 1024)) estSampleEnv.elapsed) 5)
    (pyRound (speed_mb_per_hour ((estSampleEnv.size_bytes : ℚ) / (1024 * 1024)) estSampleEnv.elapsed) 5)
    (optTruthyRound (pages_per_min estSampleEnv.pages estSampleEnv.elapsed) 4)
    (optTruthyRound (pages_per_hour estSampleEnv.pages estSampleEnv.elapsed) 2)
    200

/-- C6 witness: sample elapsed 12.0 s over samplePages 10 with total
pages 100 yields time-per-page 1.2 s and estimated total 120.0 s, that
is 2.0 minutes (and 0.033 hours after the 3-decimal rounding of the
source). -/
theorem run_estimator_projection_math_witness :
    run_estimator estEnv "hi_res" 60 "ita+eng" 10 =
      some ⟨10, 100, 6/5, 120, 2, 33/1000, "hi_res", "ita+eng", "w10.pdf"⟩ := by
  have h := run_estimator_projection_math estEnv "hi_res" "ita+eng" "w10.pdf" 60 100 10
    estSampleRecord (by norm_num) rfl (by norm_num) rfl rfl rfl rfl
  rw [h]
  norm_num [estSampleRecord, MeasurementRecord.processing_time_seconds,
    pyRound, roundHalfEven, estSampleEnv]

/-- A flatMap whose function always yields the empty list is empty. -/
lemma flatMap_const_nil {α β : Type} (l : List α) :
    (l.flatMap fun _ => ([] : List β)) = [] := by
  induction l with
  | nil => rfl
  | cons a l ih => simp [List.flatMap_cons, ih]

/-- C7: whenever the readiness probe reports failure, run_benchmark
returns the empty record list immediately and performs no
test_extraction call at all, regardless of the configured files,
strategies and options. -/
theorem run_benchmark_probe_failure (env : BenchEnv) (files strats : List String)
    (w : Bool) (t : ℚ) (ep : ℤ) (hready : env.ready = false) :
    (run_benchmark env files strats w t ep).result = Except.ok [] ∧
    (run_benchmark env files strats w t ep).calls = [] := by
  constructor <;> simp [run_benchmark, hready]

/-- A concrete single-call environment: every measurement succeeds on a
1 MB file in 2 s. -/
def execEnvOK : ExecEnv :=
  ⟨true, 1048576, none, RequestOutcome.response 200 (BodyShape.list 1) "", 2⟩

/-- A concrete benchmark environment whose probe succeeds. -/
def benchEnvOK : BenchEnv := ⟨true, fun _ _ => execEnvOK, ⟨none, none, execEnvOK⟩⟩

/-- A concrete benchmark environment whose probe fails. -/
def benchEnvDown : BenchEnv := ⟨false, fun _ _ => execEnvOK, ⟨none, none, execEnvOK⟩⟩

/-- C7 witness: the abort at a concrete unready environment with
nonempty files and strategies. -/
theorem run_benchmark_probe_failure_witness :
    (run_benchmark benchEnvDown ["A", "B"] ["s1"] true 60 10).result = Except.ok [] ∧
    (run_benchmark benchEnvDown ["A", "B"] ["s1"] true 60 10).calls = [] :=
  run_benchmark_probe_failure benchEnvDown ["A", "B"] ["s1"] true 60 10 rfl

/-- C8: when the probe succeeds and every (file, strategy) pair yields
a record, the record list run_benchmark returns is exactly the
input-major, strategy-minor traversal of the configured lists, with no
reordering and no deduplication (warm-up disabled; its record would be
discarded anyway). -/
theorem run_benchmark_sweep_order (env : BenchEnv) (f : String → String → MeasurementRecord)
    (files strats : List String) (t : ℚ) (ep : ℤ)
    (hready : env.ready = true)
    (h : ∀ p s, test_extraction (env.exec p s) p s t = some (f p s)) :
    (run_benchmark env files strats false t ep).result =
      Except.ok (files.flatMap fun p => strats.map (f p)) := by
  have hsweep : benchmark_sweep env files strats t = files.flatMap fun p => strats.map (f p) := by
    have hfil : ∀ (l : List String) (p : String),
        (l.filterMap fun s => test_extraction (env.exec p s) p s t) = l.map (f p) := by
      intro l p
      have hfun : (fun s => test_extraction (env.exec p s) p s t) =
          (fun s => some (f p s)) := funext fun s => h p s
      rw [hfun]
      induction l with
      | nil => rfl
      | cons a l ih => simp [List.filterMap_cons, ih]
    unfold benchmark_sweep
    exact congrArg _ (funext fun p => hfil strats p)
  cases files with
  | nil => simp [run_benchmark, hready, run_benchmark_rest, hsweep]
  | cons f0 rest => simp [run_benchmark, hready, run_benchmark_rest, hsweep]

/-- The success record each call of benchEnvOK produces. -/
def recOK (p s : String) : MeasurementRecord :=
  MeasurementRecord.success p (pyRound ((execEnvOK.size_bytes : ℚ) / (1024 * 1024)) 3)
    execEnvOK.pages s (pyRound execEnvOK.elapsed 3) (pyRound (execEnvOK.elapsed / 60) 3)
    (pyRound (execEnvOK.elapsed / 3600) 5) (BodyShape.list 1).elements_count
    (pyRound (speed_mb_per_sec ((execEnvOK.size_bytes : ℚ) / (1024 * 1024)) execEnvOK.elapsed) 5)
    (pyRound (speed_mb_per_min ((execEnvOK.size_bytes : ℚ) / (1024 * 1024)) execEnvOK.elapsed) 5)
    (pyRound (speed_mb_per_hour ((execEnvOK.size_bytes : ℚ) / (1024 * 1024)) execEnvOK.elapsed) 5)
    (optTruthyRound (pages_per_min execEnvOK.pages execEnvOK.elapsed) 4)
    (optTruthyRound (pages_per_hour execEnvOK.pages execEnvOK.elapsed) 2)
    200

/-- C8 witness: for inputs A, B and strategies s1, s2 the returned
sequence is exactly A/s1, A/s2, B/s1, B/s2. -/
theorem run_benchmark_sweep_order_witness :
    (run_benchmark benchEnvOK ["A", "B"] ["s1", "s2"] false 60 10).result =
      Except.ok [recOK "A" "s1", recOK "A" "s2", recOK "B" "s1", recOK "B" "s2"] := by
  have h := run_benchmark_sweep_order benchEnvOK recOK ["A", "B"] ["s1", "s2"] 60 10
    rfl (fun p s => rfl)
  rw [h]
  rfl

/-- C10: calling the orchestrator with a nonempty file list and an
empty strategies list raises the uncaught IndexError of the warm-up
strategies[0] lookup when warm-up is enabled (and the probe passed),
while with warm-up disabled it returns the empty record list: the
identical lookup inside the estimator block is swallowed by its
surrounding exception handler and the sweep loops over no strategy. -/
theorem run_benchmark_empty_strategies (env : BenchEnv) (files : List String)
    (t : ℚ) (ep : ℤ) :
    (env.ready = true → files ≠ [] →
      (run_benchmark env files [] true t ep).result = Except.error PyError.indexError) ∧
    (run_benchmark env files [] false t ep).result = Except.ok [] := by
  constructor
  · intro hr hf
    cases files with
    | nil => exact absurd rfl hf
    | cons f0 rest => simp [run_benchmark, hr]
  · cases hready : env.ready with
    | false => simp [run_benchmark, hready]
    | true =>
      cases files with
      | nil =>
        simp [run_benchmark, hready, run_benchmark_rest, benchmark_sweep, sweep_calls]
      | cons f0 rest =>
        simp [run_benchmark, hready, run_benchmark_rest, benchmark_sweep, sweep_calls,
          flatMap_const_nil]

/-- C10 witness: both behaviours at a concrete ready environment with
one file and no strategies. -/
theorem run_benchmark_empty_strategies_witness :
    (run_benchmark benchEnvOK ["A"] [] true 60 10).result = Except.error PyError.indexError ∧
    (run_benchmark benchEnvOK ["A"] [] false 60 10).result = Except.ok [] :=
  ⟨(run_benchmark_empty_strategies benchEnvOK ["A"] 60 10).1 rfl (by simp),
   (run_benchmark_empty_strategies benchEnvOK ["A"] 60 10).2⟩

/-- Every element of the list, its starting accumulator included, is
bounded by the max fold. -/
lemma foldl_max_bound (x : ℚ) (xs : List ℚ) : ∀ y ∈ x :: xs, y ≤ xs.foldl max x := by
  induction xs generalizing x with
  | nil =>
    intro y hy
    rw [List.mem_singleton] at hy
    subst hy
    simp
  | cons a l ih =>
    intro y hy
    rw [List.foldl_cons]
    rcases List.mem_cons.mp hy with rfl | hy2
    · exact le_trans (le_max_left y a) (ih (max y a) (max y a) (List.mem_cons_self _ _))
    · rcases List.mem_cons.mp hy2 with rfl | hy3
      · exact le_trans (le_max_right x y) (ih (max x y) (max x y) (List.mem_cons_self _ _))
      · exact ih (max x a) y (List.mem_cons_of_mem _ hy3)

/-- The max fold is attained by the accumulator or a list element. -/
lemma foldl_max_mem (x : ℚ) (xs : List ℚ) : xs.foldl max x ∈ x :: xs := by
  induction xs generalizing x with
  | nil => simp
  | cons a l ih =>
    rw [List.foldl_cons]
    rcases List.mem_cons.mp (ih (max x a)) with h | h
    · rcases max_choice x a with hm | hm
      · rw [h, hm]; exact List.mem_cons_self _ _
      · rw [h, hm]; exact List.mem_cons_of_mem _ (List.mem_cons_self _ _)
    · exact List.mem_cons_of_mem _ (List.mem_cons_of_mem _ h)

/-- Every element of the list, its starting accumulator included, is
above the min fold. -/
lemma foldl_min_bound (x : ℚ) (xs : List ℚ) : ∀ y ∈ x :: xs, xs.foldl min x ≤ y := by
  induction xs generalizing x with
  | nil =>
    intro y hy
    rw [List.mem_singleton] at hy
    subst hy
    simp
  | cons a l ih =>
    intro y hy
    rw [List.foldl_cons]
    rcases List.mem_cons.mp hy with rfl | hy2
    · exact le_trans (ih (min y a) (min y a) (List.mem_cons_self _ _)) (min_le_left y a)
    · rcases List.mem_cons.mp hy2 with rfl | hy3
      · exact le_trans (ih (min x y) (min x y) (List.mem_cons_self _ _)) (min_le_right x y)
      · exact ih (min x a) y (List.mem_cons_of_mem _ hy3)

/-- The min fold is attained by the accumulator or a list element. -/
lemma foldl_min_mem (x : ℚ) (xs : List ℚ) : xs.foldl min x ∈ x :: xs := by
  induction xs generalizing x with
  | nil => simp
  | cons a l ih =>
    rw [List.foldl_cons]
    rcases List.mem_cons.mp (ih (min x a)) with h | h
    · rcases min_choice x a with hm | hm
      · rw [h, hm]; exact List.mem_cons_self _ _
      · rw [h, hm]; exact List.mem_cons_of_mem _ (List.mem_cons_self _ _)
    · exact List.mem_cons_of_mem _ (List.mem_cons_of_mem _ h)

/-- On a nonempty list, list_max is attained and bounds every
element. -/
lemma list_max_spec (l : List ℚ) (hl : l ≠ []) :
    list_max l ∈ l ∧ ∀ y ∈ l, y ≤ list_max l := by
  cases l with
  | nil => exact absurd rfl hl
  | cons x xs => exact ⟨foldl_max_mem x xs, foldl_max_bound x xs⟩

/-- On a nonempty list, list_min is attained and is below every
element. -/
lemma list_min_spec (l : List ℚ) (hl : l ≠ []) :
    list_min l ∈ l ∧ ∀ y ∈ l, list_min l ≤ y := by
  cases l with
  | nil => exact absurd rfl hl
  | cons x xs => exact ⟨foldl_min_mem x xs, foldl_min_bound x xs⟩

/-- The local variable successful of print_final_report (benchmark.py
line 375). -/
def successful (results : List MeasurementRecord) : List MeasurementRecord :=
  results.filter (fun r => r.isSuccess)

/-- The local variable failed (line 376). -/
def failed (results : List MeasurementRecord) : List MeasurementRecord :=
  results.filter (fun r => !r.isSuccess)

/-- The per-record speeds the statistics range over (lines 420-422). -/
def success_speeds (results : List MeasurementRecord) : List ℚ :=
  (successful results).map (fun r => r.speed_mb_per_minute)

/-- The local variable total_mb (line 388). -/
def total_mb (results : List MeasurementRecord) : ℚ :=
  ((successful results).map (fun r => r.size_mb)).sum

/-- The local variable total_seconds (line 389). -/
def total_seconds (results : List MeasurementRecord) : ℚ :=
  ((successful results).map (fun r => r.processing_time_seconds)).sum

/-- The local variable total_pages (line 390): the sum of the known
page counts over successful records. -/
def total_pages (results : List MeasurementRecord) : ℕ :=
  ((successful results).filterMap (fun r => r.pages)).sum

/-- The local variable agg_mb_per_s with its zero-elapsed guard (line
392). -/
def agg_mb_per_s (results : List MeasurementRecord) : ℚ :=
  if 0 < total_seconds results then total_mb results / total_seconds results else 0

/-- The local variable agg_pages_per_min with its truthiness guard
(line 394). -/
def agg_pages_per_min (results : List MeasurementRecord) : Option ℚ :=
  if total_pages results ≠ 0 ∧ 0 < total_seconds results then
    some ((total_pages results : ℚ) / (total_seconds results / 60))
  else none

/-- The local variable avg_speed (line 420). -/
def avg_speed (results : List MeasurementRecord) : ℚ :=
  (success_speeds results).sum / ((successful results).length : ℚ)

/-- C9 (counterexample): print_final_report on the empty record list
reports only the no-results notice and returns before printing any
count, while the claim says every zero-success list reports the
total/successful/failed counts. -/
theorem print_final_report_empty_counterexample :
    print_final_report [] = FinalReport.noResults ∧
    FinalReport.noResults ≠ FinalReport.countsOnly 0 0 0 :=
  ⟨rfl, by simp⟩

/-- C9 (amended): print_final_report is total over every record list;
the empty list yields only the no-results notice (no counts); a
nonempty list with zero successes yields exactly the three counts with
every rate and statistics field absent; and when successes exist the
report carries the totals over successful records only, the
zero-guarded aggregate rate total_mb / total_seconds, the average speed
over successes, a maximum and minimum speed attained by and bounding
the per-record speeds of the successful records, and the derived daily
capacity. -/
theorem print_final_report_amended (results : List MeasurementRecord) :
    (results = [] → print_final_report results = FinalReport.noResults) ∧
    (results ≠ [] → (∀ r ∈ results, r.isSuccess = false) →
      print_final_report results = FinalReport.countsOnly results.length 0 results.length) ∧
    (successful results ≠ [] →
      print_final_report results =
        FinalReport.full results.length (successful results).length (failed results).length
          (total_mb results) (total_seconds results) (total_pages results)
          (agg_mb_per_s results) (agg_mb_per_s results * 60) (agg_pages_per_min results)
          (avg_speed results) (list_max (success_speeds results))
          (list_min (success_speeds results)) (avg_speed results * 60 * 24 / 1024) ∧
      list_max (success_speeds results) ∈ success_speeds results ∧
      list_min (success_speeds results) ∈ success_speeds results ∧
      (∀ y ∈ success_speeds results,
        list_min (success_speeds results) ≤ y ∧ y ≤ list_max (success_speeds results)) ∧
      (successful results).length + (failed results).length = results.length) := by
  refine ⟨?_, ?_, ?_⟩
  · intro h
    subst h
    rfl
  · intro hne hall
    have hfil : results.filter (fun r => r.isSuccess) = [] := by
      rw [List.filter_eq_nil_iff]
      intro a ha
      simp [hall a ha]
    cases results with
    | nil => exact absurd rfl hne
    | cons r rest =>
      have hfail : (r :: rest).filter (fun x => !x.isSuccess) = r :: rest := by
        rw [List.filter_eq_self]
        intro a ha
        simp [hall a ha]
      simp [print_final_report, hfil, hfail]
  · intro hs
    have hs2 : results.filter (fun r => r.isSuccess) ≠ [] := hs
    have hsp_ne : success_speeds results ≠ [] := by
      intro h
      unfold success_speeds at h
      exact hs (List.map_eq_nil_iff.mp h)
    have hlen : ∀ (l : List MeasurementRecord),
        (l.filter (fun r => r.isSuccess)).length +
          (l.filter (fun r => !r.isSuccess)).length = l.length := by
      intro l
      induction l with
      | nil => rfl
      | cons a l ih =>
        cases ha : a.isSuccess <;> simp [List.filter_cons, ha] <;> omega
    refine ⟨?_, (list_max_spec _ hsp_ne).1, (list_min_spec _ hsp_ne).1,
      fun y hy => ⟨(list_min_spec _ hsp_ne).2 y hy, (list_max_spec _ hsp_ne).2 y hy⟩,
      hlen results⟩
    cases results with
    | nil => exact absurd rfl hs2
    | cons r rest =>
      simp [print_final_report, hs2, successful, failed, total_mb, total_seconds,
        total_pages, agg_mb_per_s, agg_pages_per_min, avg_speed, success_speeds]

/-- A concrete successful record for the aggregation witness: 1 MB
processed in 2 s at 30 MB per minute. -/
def recAgg : MeasurementRecord :=
  MeasurementRecord.success "a.pdf" 1 none "fast" 2 (1/30) (1/1800) 5 (1/2) 30 1800
    none none 200

/-- C9 witness: the amended statement instantiated on the empty list,
on a one-failure list, and on a one-success list. -/
theorem print_final_report_amended_witness :
    print_final_report [] = FinalReport.noResults ∧
    print_final_report [MeasurementRecord.timeoutFailure "a" "fast" 3] =
      FinalReport.countsOnly 1 0 1 ∧
    print_final_report [recAgg] =
      FinalReport.full 1 1 0 (total_mb [recAgg]) (total_seconds [recAgg])
        (total_pages [recAgg]) (agg_mb_per_s [recAgg]) (agg_mb_per_s [recAgg] * 60)
        (agg_pages_per_min [recAgg]) (avg_speed [recAgg])
        (list_max (success_speeds [recAgg])) (list_min (success_speeds [recAgg]))
        (avg_speed [recAgg] * 60 * 24 / 1024) := by
  refine ⟨(print_final_report_amended []).1 rfl, ?_, ?_⟩
  · refine (print_final_report_amended [MeasurementRecord.timeoutFailure "a" "fast" 3]).2.1
      (by simp) ?_
    intro r hr
    rw [List.mem_singleton] at hr
    rw [hr]
    rfl
  · have h := ((print_final_report_amended [recAgg]).2.2 (by simp [successful, recAgg,
      MeasurementRecord.isSuccess])).1
    simpa using h
